import Mathlib

/-!
Shallow embedding of the budget & dayparting enforcement engine:
brands, campaigns, schedules and spend records, together with the
spend-tracking, budget-checking, dayparting and period-reset operations
(`campaigns/models.py`, `spending/models.py`, `spending/services.py`,
`scheduling/models.py`, `scheduling/services.py`).

Conventions of the embedding:
- Decimal currency amounts (`Decimal` with two fractional digits) are
  integers counted in cents (`ℤ`); comparison, addition and zero map
  directly and exactly.
- A point in time is a `DateTime`: a weekday (0 = Monday .. 6 = Sunday)
  and a time of day given as a natural number (ordering agrees with
  Python `datetime.time` ordering).
- Django querysets are lists; the schedule table is a `List Schedule`
  and the campaign table a `List Campaign`.  A row update (`save`) is a
  by-id replacement in the campaign list (`update_campaign`).
- Python exceptions are `Except`: `Schedule.objects.get` raising
  `MultipleObjectsReturned` and `ValueError` from validation become
  `Except.error`; a `try/except` block becomes a `match` on the result.
-/

deriving instance DecidableEq for Except

namespace BudgetSystem

inductive CampaignStatus where
  | ACTIVE
  | PAUSED
deriving DecidableEq

inductive PauseReason where
  | DAILY_BUDGET_EXCEEDED
  | MONTHLY_BUDGET_EXCEEDED
  | OUTSIDE_SCHEDULE
  | NO_SCHEDULE
  | MANUAL
deriving DecidableEq

inductive SpendType where
  | DAILY
  | MONTHLY
deriving DecidableEq

/-- The one storage exception the scheduling lookup can raise:
`Schedule.objects.get` with more than one matching row. -/
inductive DBError where
  | MultipleObjectsReturned
deriving DecidableEq

/-- A point in time: weekday (0 = Monday .. 6 = Sunday, as Python
`datetime.weekday()`) and time of day. -/
structure DateTime where
  weekday : ℕ
  timeOfDay : ℕ
deriving DecidableEq

/-- `brands/models.py` `Brand`: only the budget fields matter to the engine. -/
structure Brand where
  daily_budget : ℤ
  monthly_budget : ℤ
deriving DecidableEq

/-- `campaigns/models.py` `Campaign`. -/
structure Campaign where
  id : ℕ
  brand : Brand
  status : CampaignStatus
  daily_spend : ℤ
  monthly_spend : ℤ
  pause_reason : Option PauseReason
  paused_at : Option DateTime
deriving DecidableEq

/-- `scheduling/models.py` `Schedule`. -/
structure Schedule where
  campaign_id : ℕ
  day_of_week : ℕ
  start_time : ℕ
  end_time : ℕ
  is_active : Bool
deriving DecidableEq

/-- `spending/models.py` `Spend`; `pk` models `self.pk`.  The `id`
field is declared `UUIDField(primary_key=True, default=uuid.uuid4)`, and
Django applies field defaults in `Model.__init__`, so any row built by
`Spend(...)` or `Spend.objects.create(...)` carries its primary key
already at instantiation — before `save` ever runs.  `pk = none` is
reachable only by explicitly constructing `Spend(id=None)`. -/
structure Spend where
  pk : Option ℕ
  campaign_id : ℕ
  amount : ℤ
  spend_date : ℕ
  spend_type : SpendType
  description : Option String
deriving DecidableEq

/-- `Campaign.is_active`. -/
def Campaign.is_active (c : Campaign) : Bool :=
  c.status == CampaignStatus.ACTIVE

/-- `Campaign.is_paused`. -/
def Campaign.is_paused (c : Campaign) : Bool :=
  c.status == CampaignStatus.PAUSED

/-- `Campaign.pause`: set status PAUSED, record the reason and the time. -/
def Campaign.pause (c : Campaign) (reason : PauseReason) (now : DateTime) :
    Campaign :=
  { c with
    status := CampaignStatus.PAUSED
    pause_reason := some reason
    paused_at := some now }

/-- `Campaign.add_spend`: reject a non-positive amount, otherwise add it
to both running totals. -/
def Campaign.add_spend (c : Campaign) (amount : ℤ) : Except String Campaign :=
  if amount ≤ 0 then
    Except.error "Spend amount must be positive"
  else
    Except.ok
      { c with
        daily_spend := c.daily_spend + amount
        monthly_spend := c.monthly_spend + amount }

/-- `Campaign.reset_daily_spend`. -/
def Campaign.reset_daily_spend (c : Campaign) : Campaign :=
  { c with daily_spend := 0 }

/-- `Campaign.reset_monthly_spend`. -/
def Campaign.reset_monthly_spend (c : Campaign) : Campaign :=
  { c with monthly_spend := 0 }

/-- `Schedule.is_time_in_range`: inclusive on both ends. -/
def Schedule.is_time_in_range (s : Schedule) (check_time : ℕ) : Bool :=
  decide (s.start_time ≤ check_time) && decide (check_time ≤ s.end_time)

/-- The row filter of `Schedule.objects.get(campaign=..., day_of_week=...,
is_active=True)`. -/
def scheduleMatches (cid day : ℕ) (s : Schedule) : Bool :=
  (s.campaign_id == cid) && (s.day_of_week == day) && s.is_active

/-- `Schedule.get_schedule_for_campaign_and_day`: Django `objects.get`
returns the unique matching row, maps `DoesNotExist` to `None` (the
`except` clause), and raises `MultipleObjectsReturned` when several rows
match. -/
def Schedule.get_schedule_for_campaign_and_day (db : List Schedule)
    (cid day : ℕ) : Except DBError (Option Schedule) :=
  match db.filter (scheduleMatches cid day) with
  | [] => Except.ok none
  | [s] => Except.ok (some s)
  | _ :: _ :: _ => Except.error DBError.MultipleObjectsReturned

/-- `SchedulingService.is_campaign_scheduled_now`. -/
def is_campaign_scheduled_now (db : List Schedule) (c : Campaign)
    (now : DateTime) : Except DBError Bool :=
  match Schedule.get_schedule_for_campaign_and_day db c.id now.weekday with
  | Except.error e => Except.error e
  | Except.ok none => Except.ok false
  | Except.ok (some s) => Except.ok (s.is_time_in_range now.timeOfDay)

/-- `Campaign.can_be_activated`: budget headroom (strict, in this order)
then the dayparting check; the schedule lookup may raise. -/
def Campaign.can_be_activated (c : Campaign) (db : List Schedule)
    (now : DateTime) : Except DBError Bool :=
  if c.brand.daily_budget ≤ c.daily_spend then
    Except.ok false
  else if c.brand.monthly_budget ≤ c.monthly_spend then
    Except.ok false
  else
    match is_campaign_scheduled_now db c now with
    | Except.error e => Except.error e
    | Except.ok b => if !b then Except.ok false else Except.ok true

/-- `Campaign.activate`: re-checks `can_be_activated`; on success clears
the pause fields and returns `true`, otherwise leaves the campaign
untouched and returns `false`. -/
def Campaign.activate (c : Campaign) (db : List Schedule) (now : DateTime) :
    Except DBError (Campaign × Bool) :=
  match c.can_be_activated db now with
  | Except.error e => Except.error e
  | Except.ok false => Except.ok (c, false)
  | Except.ok true =>
      Except.ok
        ({ c with
           status := CampaignStatus.ACTIVE
           pause_reason := none
           paused_at := none }, true)

/-- `Spend.save`: a new record (no primary key yet) is assigned one and
triggers `Campaign.add_spend` exactly once; re-saving an existing record
changes nothing on the campaign. -/
def Spend.save (s : Spend) (c : Campaign) (newPk : ℕ) :
    Except String (Spend × Campaign) :=
  let is_new := s.pk.isNone
  let s1 := if is_new then { s with pk := some newPk } else s
  if is_new then
    match c.add_spend s1.amount with
    | Except.error e => Except.error e
    | Except.ok c1 => Except.ok (s1, c1)
  else
    Except.ok (s1, c)

/-- The result record of `SpendingService.check_budget_limits`. -/
structure BudgetCheckResults where
  daily_exceeded : Bool
  monthly_exceeded : Bool
  action_taken : Option String
deriving DecidableEq

/-- `SpendingService.check_budget_limits`: the daily branch runs first
and pauses an active campaign; the monthly branch then runs on the
(possibly just paused) campaign, its pause guarded by `is_active`. -/
def check_budget_limits (c : Campaign) (now : DateTime) :
    Campaign × BudgetCheckResults :=
  let results : BudgetCheckResults :=
    { daily_exceeded := false, monthly_exceeded := false, action_taken := none }
  let step1 : Campaign × BudgetCheckResults :=
    if c.brand.daily_budget ≤ c.daily_spend then
      let results := { results with daily_exceeded := true }
      if c.is_active then
        (c.pause PauseReason.DAILY_BUDGET_EXCEEDED now,
         { results with action_taken := some "paused_daily" })
      else
        (c, results)
    else
      (c, results)
  let c1 := step1.1
  let results1 := step1.2
  if c1.brand.monthly_budget ≤ c1.monthly_spend then
    let results2 := { results1 with monthly_exceeded := true }
    if c1.is_active then
      (c1.pause PauseReason.MONTHLY_BUDGET_EXCEEDED now,
       { results2 with action_taken := some "paused_monthly" })
    else
      (c1, results2)
  else
    (c1, results1)

/-- `SpendingService.track_spend`: validate the amount, default the
date, create the `Spend` row via `Spend.objects.create`, then run the
budget check on the same campaign; all inside one transaction, so an
error persists nothing.  `objects.create` instantiates the model —
which applies the `uuid.uuid4` default, so the row reaches `save` with
`pk = some newPk` (here `newPk` stands for the generated UUID) — and
then saves it; consequently the save hook's `is_new` test is `false`
and `add_spend` is never invoked on this path. -/
def track_spend (c : Campaign) (ledger : List Spend) (amount : ℤ)
    (spend_date : Option ℕ) (today : ℕ) (description : Option String)
    (now : DateTime) (newPk : ℕ) :
    Except String (Campaign × List Spend × Spend) :=
  if amount ≤ 0 then
    Except.error "Spend amount must be positive"
  else
    let d := spend_date.getD today
    let s0 : Spend :=
      { pk := some newPk, campaign_id := c.id, amount := amount
        spend_date := d, spend_type := SpendType.DAILY
        description := description }
    match s0.save c newPk with
    | Except.error e => Except.error e
    | Except.ok (s, c1) =>
        let c2 := (check_budget_limits c1 now).1
        Except.ok (c2, ledger ++ [s], s)

/-- Persisting a campaign row: replace, in the campaign table, every row
with the same primary key. -/
def update_campaign (cs : List Campaign) (c : Campaign) : List Campaign :=
  cs.map (fun x => if x.id == c.id then c else x)

/-- The loop body of `SchedulingService.get_campaigns_that_should_be_paused`
over the already-fetched list of ACTIVE campaigns: keep a campaign when it
has no schedule for today or the time is outside its window; the lookup
may raise, aborting the whole computation. -/
def campaigns_to_pause_loop (db : List Schedule) (now : DateTime) :
    List Campaign → Except DBError (List Campaign)
  | [] => Except.ok []
  | c :: rest =>
    match Schedule.get_schedule_for_campaign_and_day db c.id now.weekday with
    | Except.error e => Except.error e
    | Except.ok none =>
        match campaigns_to_pause_loop db now rest with
        | Except.error e => Except.error e
        | Except.ok l => Except.ok (c :: l)
    | Except.ok (some s) =>
        match campaigns_to_pause_loop db now rest with
        | Except.error e => Except.error e
        | Except.ok l =>
            if s.is_time_in_range now.timeOfDay then Except.ok l
            else Except.ok (c :: l)

/-- `SchedulingService.get_campaigns_that_should_be_paused`. -/
def get_campaigns_that_should_be_paused (db : List Schedule)
    (cs : List Campaign) (now : DateTime) : Except DBError (List Campaign) :=
  campaigns_to_pause_loop db now (cs.filter Campaign.is_active)

/-- `SchedulingService.get_campaigns_that_should_be_active`: the
schedules active now for today, joined to their campaigns. -/
def get_campaigns_that_should_be_active (db : List Schedule)
    (cs : List Campaign) (now : DateTime) : List Campaign :=
  (db.filter (fun s =>
      (s.day_of_week == now.weekday) && s.is_active &&
      decide (s.start_time ≤ now.timeOfDay) &&
      decide (now.timeOfDay ≤ s.end_time))).filterMap
    (fun s => cs.find? (fun c => c.id == s.campaign_id))

/-- Result record of `SchedulingService.enforce_dayparting`. -/
structure DaypartingResults where
  activated : ℕ
  paused : ℕ
  errors : ℕ
deriving DecidableEq

/-- Phase 1 of `enforce_dayparting`: pause each fetched campaign that is
(still, on its snapshot) active, with reason OUTSIDE_SCHEDULE. -/
def pause_loop (now : DateTime) :
    List Campaign → List Campaign → ℕ → List Campaign × ℕ
  | [], st, n => (st, n)
  | c :: rest, st, n =>
    if c.is_active then
      pause_loop now rest
        (update_campaign st (c.pause PauseReason.OUTSIDE_SCHEDULE now)) (n + 1)
    else
      pause_loop now rest st n

/-- The Boolean guard of phase 2 of `enforce_dayparting`: campaign
paused with one of the two schedule reasons. -/
def daypartGuard (c : Campaign) : Bool :=
  c.is_paused &&
    ((c.pause_reason == some PauseReason.OUTSIDE_SCHEDULE) ||
     (c.pause_reason == some PauseReason.NO_SCHEDULE))

/-- Phase 2 of `enforce_dayparting`: reactivate each fetched campaign
that is paused for a schedule reason and can be activated; per-campaign
exceptions are caught and tallied. -/
def dayparting_activate_loop (db : List Schedule) (now : DateTime) :
    List Campaign → List Campaign → ℕ → ℕ → List Campaign × ℕ × ℕ
  | [], st, n, e => (st, n, e)
  | c :: rest, st, n, e =>
    if daypartGuard c then
      match c.can_be_activated db now with
      | Except.error _ => dayparting_activate_loop db now rest st n (e + 1)
      | Except.ok false => dayparting_activate_loop db now rest st n e
      | Except.ok true =>
          match c.activate db now with
          | Except.error _ => dayparting_activate_loop db now rest st n (e + 1)
          | Except.ok (c2, _) =>
              dayparting_activate_loop db now rest
                (update_campaign st c2) (n + 1) e
    else
      dayparting_activate_loop db now rest st n e

/-- `SchedulingService.enforce_dayparting`: pause phase over active
campaigns outside their window, then activate phase over campaigns whose
schedule covers now; an exception while computing the pause set is
caught by the outer handler, leaving every campaign untouched. -/
def enforce_dayparting (db : List Schedule) (cs : List Campaign)
    (now : DateTime) : List Campaign × DaypartingResults :=
  match get_campaigns_that_should_be_paused db cs now with
  | Except.error _ => (cs, { activated := 0, paused := 0, errors := 1 })
  | Except.ok toPause =>
      let phase1 := pause_loop now toPause cs 0
      let cs1 := phase1.1
      let shouldBeActive := get_campaigns_that_should_be_active db cs1 now
      let phase2 := dayparting_activate_loop db now shouldBeActive cs1 0 0
      (phase2.1, { activated := phase2.2.1, paused := phase1.2,
                   errors := phase2.2.2 })

/-- Result record of `SpendingService.enforce_budget_limits`. -/
structure BudgetEnforcementResults where
  checked : ℕ
  paused_daily : ℕ
  paused_monthly : ℕ
  errors : ℕ
deriving DecidableEq

/-- The loop of `SpendingService.enforce_budget_limits` over the fetched
ACTIVE campaigns: run the budget check on each snapshot, persist its
outcome, and tally the action taken. -/
def budget_loop (now : DateTime) :
    List Campaign → List Campaign → ℕ → ℕ → ℕ → List Campaign × ℕ × ℕ × ℕ
  | [], st, ch, pd, pm => (st, ch, pd, pm)
  | c :: rest, st, ch, pd, pm =>
    let r := check_budget_limits c now
    let st2 := update_campaign st r.1
    if r.2.action_taken == some "paused_daily" then
      budget_loop now rest st2 (ch + 1) (pd + 1) pm
    else if r.2.action_taken == some "paused_monthly" then
      budget_loop now rest st2 (ch + 1) pd (pm + 1)
    else
      budget_loop now rest st2 (ch + 1) pd pm

/-- `SpendingService.enforce_budget_limits`. -/
def enforce_budget_limits (cs : List Campaign) (now : DateTime) :
    List Campaign × BudgetEnforcementResults :=
  let active := cs.filter Campaign.is_active
  let r := budget_loop now active cs 0 0 0
  (r.1, { checked := r.2.1, paused_daily := r.2.2.1,
          paused_monthly := r.2.2.2, errors := 0 })

/-- Result record of the period-reset operations. -/
structure ResetResults where
  reset : ℕ
  reactivated : ℕ
  errors : ℕ
deriving DecidableEq

/-- The reactivation loop shared by both period resets: for each fetched
budget-paused campaign, reactivate it when `can_be_activated` holds;
per-campaign exceptions are caught and tallied. -/
def reactivate_loop (db : List Schedule) (now : DateTime) :
    List Campaign → List Campaign → ℕ → ℕ → List Campaign × ℕ × ℕ
  | [], st, n, e => (st, n, e)
  | c :: rest, st, n, e =>
    match c.can_be_activated db now with
    | Except.error _ => reactivate_loop db now rest st n (e + 1)
    | Except.ok false => reactivate_loop db now rest st n e
    | Except.ok true =>
        match c.activate db now with
        | Except.error _ => reactivate_loop db now rest st n (e + 1)
        | Except.ok (c2, _) =>
            reactivate_loop db now rest (update_campaign st c2) (n + 1) e

/-- `SpendingService.reset_daily_spends`: zero every campaign's daily
counter, then reactivate the campaigns paused with
DAILY_BUDGET_EXCEEDED that can now be activated. -/
def reset_daily_spends (db : List Schedule) (cs : List Campaign)
    (now : DateTime) : List Campaign × ResetResults :=
  let cs1 := cs.map Campaign.reset_daily_spend
  let pausedDaily := cs1.filter (fun c =>
    (c.status == CampaignStatus.PAUSED) &&
    (c.pause_reason == some PauseReason.DAILY_BUDGET_EXCEEDED))
  let r := reactivate_loop db now pausedDaily cs1 0 0
  (r.1, { reset := cs.length, reactivated := r.2.1, errors := r.2.2 })

/-- `SpendingService.reset_monthly_spends`: zero every campaign's
monthly counter, then reactivate the campaigns paused with
MONTHLY_BUDGET_EXCEEDED that can now be activated. -/
def reset_monthly_spends (db : List Schedule) (cs : List Campaign)
    (now : DateTime) : List Campaign × ResetResults :=
  let cs1 := cs.map Campaign.reset_monthly_spend
  let pausedMonthly := cs1.filter (fun c =>
    (c.status == CampaignStatus.PAUSED) &&
    (c.pause_reason == some PauseReason.MONTHLY_BUDGET_EXCEEDED))
  let r := reactivate_loop db now pausedMonthly cs1 0 0
  (r.1, { reset := cs.length, reactivated := r.2.1, errors := r.2.2 })

/-- The pairing invariant of `campaigns/models.py`: `pause_reason` and
`paused_at` are both empty exactly when the campaign is ACTIVE (hence
both set exactly when it is PAUSED). -/
def pairedInvariant (c : Campaign) : Prop :=
  (c.pause_reason = none ↔ c.status = CampaignStatus.ACTIVE) ∧
  (c.paused_at = none ↔ c.status = CampaignStatus.ACTIVE)

instance (c : Campaign) : Decidable (pairedInvariant c) := by
  unfold pairedInvariant
  infer_instance

/-! Sample rows used by the concrete witnesses and counterexamples.
Amounts are cents: the brand caps spending at 100.00 per day and
1000.00 per month. -/

def demoBrand : Brand := { daily_budget := 10000, monthly_budget := 100000 }

def demoTime : DateTime := { weekday := 0, timeOfDay := 36000 }

def demoActive : Campaign :=
  { id := 1, brand := demoBrand, status := CampaignStatus.ACTIVE,
    daily_spend := 0, monthly_spend := 0,
    pause_reason := none, paused_at := none }

def demoBothExceeded : Campaign :=
  { demoActive with daily_spend := 10000, monthly_spend := 100000 }

def demoBoundary : Campaign :=
  { demoActive with daily_spend := 10000, monthly_spend := 500 }

def demoSavedSpend : Spend :=
  { pk := some 5, campaign_id := 1, amount := 700, spend_date := 3,
    spend_type := SpendType.DAILY, description := none }

def demoSchedule : Schedule :=
  { campaign_id := 1, day_of_week := 0, start_time := 32400,
    end_time := 64800, is_active := true }

def demoSchedule2 : Schedule :=
  { campaign_id := 1, day_of_week := 0, start_time := 0,
    end_time := 10, is_active := true }

def demoManualPaused : Campaign :=
  { id := 3, brand := demoBrand, status := CampaignStatus.PAUSED,
    daily_spend := 0, monthly_spend := 0,
    pause_reason := some PauseReason.MANUAL, paused_at := some demoTime }

def demoPausedDaily : Campaign :=
  { id := 2, brand := demoBrand, status := CampaignStatus.PAUSED,
    daily_spend := 12000, monthly_spend := 500,
    pause_reason := some PauseReason.DAILY_BUDGET_EXCEEDED,
    paused_at := some demoTime }

def demoScheduleFor2 : Schedule :=
  { campaign_id := 2, day_of_week := 0, start_time := 0,
    end_time := 86399, is_active := true }

/-- The budget check can only leave the campaign unchanged or pause it
with one of the two budget reasons. -/
lemma check_budget_limits_fst_cases (c : Campaign) (now : DateTime) :
    (check_budget_limits c now).1 = c ∨
    (check_budget_limits c now).1 =
      c.pause PauseReason.DAILY_BUDGET_EXCEEDED now ∨
    (check_budget_limits c now).1 =
      c.pause PauseReason.MONTHLY_BUDGET_EXCEEDED now := by
  unfold check_budget_limits
  by_cases h1 : c.brand.daily_budget ≤ c.daily_spend <;>
    by_cases h2 : c.status = CampaignStatus.ACTIVE <;>
      by_cases h3 : c.brand.monthly_budget ≤ c.monthly_spend <;>
        simp [h1, h2, h3, Campaign.pause, Campaign.is_active, beq_iff_eq]

/-- The budget check never changes the running totals. -/
lemma check_budget_limits_spends (c : Campaign) (now : DateTime) :
    (check_budget_limits c now).1.daily_spend = c.daily_spend ∧
    (check_budget_limits c now).1.monthly_spend = c.monthly_spend := by
  rcases check_budget_limits_fst_cases c now with h | h | h <;> rw [h] <;>
    exact ⟨rfl, rfl⟩

/-- C1 (counterexample): on an ACTIVE campaign with both budgets
exceeded, the final pause reason recorded by `check_budget_limits` is
not MONTHLY_BUDGET_EXCEEDED, contradicting the claim that the monthly
branch overwrites the daily reason. -/
theorem C1_counterexample :
    demoBothExceeded.status = CampaignStatus.ACTIVE ∧
    demoBothExceeded.brand.daily_budget ≤ demoBothExceeded.daily_spend ∧
    demoBothExceeded.brand.monthly_budget ≤ demoBothExceeded.monthly_spend ∧
    ¬ ((check_budget_limits demoBothExceeded demoTime).1.pause_reason =
        some PauseReason.MONTHLY_BUDGET_EXCEEDED) := by
  decide

/-- C1 (amended): for every ACTIVE campaign with
`daily_spend ≥ brand.daily_budget` and
`monthly_spend ≥ brand.monthly_budget`, `check_budget_limits` leaves the
campaign PAUSED with final reason DAILY_BUDGET_EXCEEDED: the daily check
pauses first, and the monthly branch — although it still reports
`monthly_exceeded = true` — does not pause again because its pause is
guarded by `is_active`, which is already false.  Daily wins when both
conditions are true. -/
theorem C1_both_exceeded_daily_reason_wins (c : Campaign) (now : DateTime)
    (hA : c.status = CampaignStatus.ACTIVE)
    (hd : c.brand.daily_budget ≤ c.daily_spend)
    (hm : c.brand.monthly_budget ≤ c.monthly_spend) :
    (check_budget_limits c now).1.status = CampaignStatus.PAUSED ∧
    (check_budget_limits c now).1.pause_reason =
      some PauseReason.DAILY_BUDGET_EXCEEDED ∧
    (check_budget_limits c now).2.daily_exceeded = true ∧
    (check_budget_limits c now).2.monthly_exceeded = true ∧
    (check_budget_limits c now).2.action_taken = some "paused_daily" := by
  unfold check_budget_limits
  simp [hA, hd, hm, Campaign.pause, Campaign.is_active]

/-- C1 witness: the amended theorem applied to the concrete
both-exceeded campaign. -/
theorem C1_witness :
    demoBothExceeded.status = CampaignStatus.ACTIVE ∧
    (check_budget_limits demoBothExceeded demoTime).1.pause_reason =
      some PauseReason.DAILY_BUDGET_EXCEEDED :=
  ⟨by decide,
   (C1_both_exceeded_daily_reason_wins demoBothExceeded demoTime
     (by decide) (by decide) (by decide)).2.1⟩

/-- C2: for every campaign and every amount ≤ 0, `track_spend` fails
with the invalid-amount error before creating a Spend row or touching
the counters (the whole call is one transaction, so the error persists
nothing), and `Campaign.add_spend` rejects the same amount. -/
theorem C2_nonpositive_amount_fails (c : Campaign) (ledger : List Spend)
    (amount : ℤ) (spend_date : Option ℕ) (today : ℕ)
    (description : Option String) (now : DateTime) (newPk : ℕ)
    (h : amount ≤ 0) :
    track_spend c ledger amount spend_date today description now newPk =
      Except.error "Spend amount must be positive" ∧
    c.add_spend amount = Except.error "Spend amount must be positive" := by
  unfold track_spend Campaign.add_spend
  simp [h]

/-- C2 witness: tracking a spend of -1.00 on the sample campaign fails. -/
theorem C2_witness :
    ((-100 : ℤ) ≤ 0) ∧
    track_spend demoActive [] (-100) none 0 none demoTime 1 =
      Except.error "Spend amount must be positive" :=
  ⟨by decide,
   (C2_nonpositive_amount_fails demoActive [] (-100) none 0 none demoTime 1
     (by decide)).1⟩

/-- C3 (code bug): for every amount > 0, `track_spend` succeeds and
appends exactly one Spend row, but the campaign's `daily_spend` and
`monthly_spend` are UNCHANGED, contradicting the claim (and the
repository's own tests `test_spend_save_updates_campaign_totals` and
`test_track_spend`): the row reaches `save` with its `uuid4`-default
primary key already set, so the hook's `is_new = (self.pk is None)`
test is false and `add_spend` never fires. -/
theorem C3_save_hook_never_fires (c : Campaign) (ledger : List Spend)
    (amount : ℤ) (spend_date : Option ℕ) (today : ℕ)
    (description : Option String) (now : DateTime) (newPk : ℕ)
    (h : 0 < amount) :
    ∃ c2 s,
      track_spend c ledger amount spend_date today description now newPk =
        Except.ok (c2, ledger ++ [s], s) ∧
      c2.daily_spend = c.daily_spend ∧
      c2.monthly_spend = c.monthly_spend ∧
      s.amount = amount ∧
      s.pk = some newPk := by
  have hn : ¬ (amount ≤ 0) := not_le.mpr h
  unfold track_spend Spend.save
  simp only [hn, if_false, Option.isNone_some, if_true, ite_true, ite_false,
    reduceIte]
  refine ⟨_, _, rfl, ?_, ?_, rfl, rfl⟩
  · exact (check_budget_limits_spends _ now).1
  · exact (check_budget_limits_spends _ now).2

/-- C3 witness: a 5.00 spend on the fresh sample campaign leaves both
counters at 0 — the increment the spec (and the repository's tests)
promise does not happen. -/
theorem C3_witness :
    (0 : ℤ) < 500 ∧
    ∃ c2 s,
      track_spend demoActive [] 500 none 0 none demoTime 1 =
        Except.ok (c2, [] ++ [s], s) ∧
      c2.daily_spend = demoActive.daily_spend ∧
      c2.monthly_spend = demoActive.monthly_spend ∧
      s.amount = 500 ∧
      s.pk = some 1 :=
  ⟨by decide,
   C3_save_hook_never_fires demoActive [] 500 none 0 none demoTime 1
     (by decide)⟩

/-- C4: the boundary counts as exceeded — an ACTIVE campaign whose
`daily_spend` exactly equals the brand's daily budget (monthly budget
not exceeded) is paused by `check_budget_limits` with reason
DAILY_BUDGET_EXCEEDED, because the comparison is `>=`. -/
theorem C4_boundary_equality_pauses_daily (c : Campaign) (now : DateTime)
    (hA : c.status = CampaignStatus.ACTIVE)
    (hd : c.daily_spend = c.brand.daily_budget)
    (hm : c.monthly_spend < c.brand.monthly_budget) :
    (check_budget_limits c now).1.status = CampaignStatus.PAUSED ∧
    (check_budget_limits c now).1.pause_reason =
      some PauseReason.DAILY_BUDGET_EXCEEDED ∧
    (check_budget_limits c now).1.paused_at = some now ∧
    (check_budget_limits c now).2.action_taken = some "paused_daily" := by
  have h1 : c.brand.daily_budget ≤ c.daily_spend := le_of_eq hd.symm
  have h3 : ¬ (c.brand.monthly_budget ≤ c.monthly_spend) := not_le.mpr hm
  unfold check_budget_limits
  simp [hA, h1, h3, Campaign.pause, Campaign.is_active]

/-- C4 witness: spend of exactly 100.00 against a 100.00 daily budget
pauses the sample campaign with DAILY_BUDGET_EXCEEDED. -/
theorem C4_witness :
    demoBoundary.daily_spend = demoBoundary.brand.daily_budget ∧
    (check_budget_limits demoBoundary demoTime).1.status =
      CampaignStatus.PAUSED ∧
    (check_budget_limits demoBoundary demoTime).1.pause_reason =
      some PauseReason.DAILY_BUDGET_EXCEEDED :=
  ⟨by decide,
   (C4_boundary_equality_pauses_daily demoBoundary demoTime
     (by decide) (by decide) (by decide)).1,
   (C4_boundary_equality_pauses_daily demoBoundary demoTime
     (by decide) (by decide) (by decide)).2.1⟩

/-- C10: the counter-increment hook fires only on first creation — for
a Spend row that already has a primary key, `save` returns the record
and the owning campaign completely unchanged (in particular
`daily_spend` and `monthly_spend`): no double-charging on re-save. -/
theorem C10_resave_changes_nothing (s : Spend) (c : Campaign) (newPk k : ℕ)
    (h : s.pk = some k) :
    Spend.save s c newPk = Except.ok (s, c) := by
  unfold Spend.save
  simp [h]

/-- C10 witness: re-saving the already-persisted sample spend leaves the
sample campaign untouched. -/
theorem C10_witness :
    demoSavedSpend.pk = some 5 ∧
    Spend.save demoSavedSpend demoActive 9 =
      Except.ok (demoSavedSpend, demoActive) :=
  ⟨rfl, C10_resave_changes_nothing demoSavedSpend demoActive 9 5 rfl⟩

/-- C8: `is_campaign_scheduled_now` returns `false` whenever no active
schedule row matches the campaign and the current weekday (in
particular, for a campaign with zero schedule rows, at any time); and
when exactly one active schedule matches, it returns `true` exactly when
the time of day lies within `[start_time, end_time]`, inclusive on both
ends. -/
theorem C8_schedule_lookup_semantics (db : List Schedule) (c : Campaign)
    (now : DateTime) :
    (db.filter (scheduleMatches c.id now.weekday) = [] →
      is_campaign_scheduled_now db c now = Except.ok false) ∧
    (∀ s, db.filter (scheduleMatches c.id now.weekday) = [s] →
      (is_campaign_scheduled_now db c now = Except.ok true ↔
        (s.start_time ≤ now.timeOfDay ∧ now.timeOfDay ≤ s.end_time))) := by
  constructor
  · intro h
    unfold is_campaign_scheduled_now Schedule.get_schedule_for_campaign_and_day
    rw [h]
  · intro s h
    unfold is_campaign_scheduled_now Schedule.get_schedule_for_campaign_and_day
    rw [h]
    simp [Schedule.is_time_in_range]

/-- C8 witness: the lookup semantics evaluated on the empty schedule
table and on a one-row table for the sample campaign. -/
theorem C8_witness :
    is_campaign_scheduled_now [] demoActive demoTime = Except.ok false ∧
    (is_campaign_scheduled_now [demoSchedule] demoActive demoTime =
        Except.ok true ↔
      (demoSchedule.start_time ≤ demoTime.timeOfDay ∧
       demoTime.timeOfDay ≤ demoSchedule.end_time)) :=
  ⟨(C8_schedule_lookup_semantics [] demoActive demoTime).1 rfl,
   (C8_schedule_lookup_semantics [demoSchedule] demoActive demoTime).2
     demoSchedule (by decide)⟩

/-- C9 (counterexample): with two active schedules for the same day —
the first of which covers the current time — the lookup does not return
the first schedule's verdict: `is_campaign_scheduled_now` raises
`MultipleObjectsReturned` instead, contradicting the claim that the
first row returned by storage is used rather than failing. -/
theorem C9_counterexample :
    Schedule.is_time_in_range demoSchedule demoTime.timeOfDay = true ∧
    is_campaign_scheduled_now [demoSchedule, demoSchedule2] demoActive
      demoTime = Except.error DBError.MultipleObjectsReturned ∧
    ¬ (is_campaign_scheduled_now [demoSchedule, demoSchedule2] demoActive
        demoTime = Except.ok true) := by
  decide

/-- C9 (amended): for every campaign with two or more active schedules
matching the current day-of-week, `get_schedule_for_campaign_and_day`
raises `MultipleObjectsReturned` (Django `objects.get` with several
matching rows; only `DoesNotExist` is caught), and
`is_campaign_scheduled_now` propagates that failure instead of returning
any schedule's verdict. -/
theorem C9_duplicate_day_lookup_raises (db : List Schedule) (c : Campaign)
    (now : DateTime)
    (h : 2 ≤ (db.filter (scheduleMatches c.id now.weekday)).length) :
    Schedule.get_schedule_for_campaign_and_day db c.id now.weekday =
      Except.error DBError.MultipleObjectsReturned ∧
    is_campaign_scheduled_now db c now =
      Except.error DBError.MultipleObjectsReturned := by
  rcases hf : db.filter (scheduleMatches c.id now.weekday) with _ | ⟨a, _ | ⟨b, rest⟩⟩
  · rw [hf] at h; simp at h
  · rw [hf] at h; simp at h
  · constructor
    · unfold Schedule.get_schedule_for_campaign_and_day
      rw [hf]
    · unfold is_campaign_scheduled_now
        Schedule.get_schedule_for_campaign_and_day
      rw [hf]

/-- C9 witness: the amended lookup-failure theorem applied to the
two-schedule sample table. -/
theorem C9_witness :
    2 ≤ (([demoSchedule, demoSchedule2] : List Schedule).filter
          (scheduleMatches demoActive.id demoTime.weekday)).length ∧
    is_campaign_scheduled_now [demoSchedule, demoSchedule2] demoActive
      demoTime = Except.error DBError.MultipleObjectsReturned :=
  ⟨by decide,
   (C9_duplicate_day_lookup_raises [demoSchedule, demoSchedule2] demoActive
     demoTime (by decide)).2⟩

/-! Helper lemmas about persisting a single campaign row into the
campaign table. -/

lemma update_campaign_getElem (cs : List Campaign) (c : Campaign) (i : ℕ) :
    (update_campaign cs c)[i]? =
      (cs[i]?).map (fun x => if x.id == c.id then c else x) :=
  List.getElem?_map _ cs i

lemma update_campaign_untouched (cs : List Campaign) (c t : Campaign) (i : ℕ)
    (ht : cs[i]? = some t) (hne : c.id ≠ t.id) :
    (update_campaign cs c)[i]? = some t := by
  have hb : (t.id == c.id) = false :=
    beq_eq_false_iff_ne.mpr (fun h => hne h.symm)
  rw [update_campaign_getElem, ht]
  simp [hb]
  exact fun h => absurd h.symm hne

lemma update_campaign_hit (cs : List Campaign) (c t : Campaign) (i : ℕ)
    (ht : cs[i]? = some t) (heq : t.id = c.id) :
    (update_campaign cs c)[i]? = some c := by
  rw [update_campaign_getElem, ht]
  simp [heq]

lemma update_campaign_map_id (cs : List Campaign) (c : Campaign) :
    (update_campaign cs c).map Campaign.id = cs.map Campaign.id := by
  unfold update_campaign
  rw [List.map_map]
  apply List.map_congr_left
  intro x _
  simp only [Function.comp_apply]
  by_cases h : x.id = c.id
  · simp [h]
  · simp [h]

lemma mem_update_campaign (cs : List Campaign) (c x : Campaign)
    (hx : x ∈ update_campaign cs c) : x ∈ cs ∨ x = c := by
  unfold update_campaign at hx
  rcases List.mem_map.mp hx with ⟨y, hy, hxy⟩
  by_cases h : (y.id == c.id) = true
  · rw [if_pos h] at hxy
    exact Or.inr hxy.symm
  · rw [if_neg h] at hxy
    exact Or.inl (hxy ▸ hy)

lemma id_inj_of_nodup (cs : List Campaign)
    (h : (cs.map Campaign.id).Nodup) {x y : Campaign}
    (hx : x ∈ cs) (hy : y ∈ cs) (hid : x.id = y.id) : x = y :=
  List.inj_on_of_nodup_map h hx hy hid

/-! Helper lemmas about `Campaign.activate`. -/

lemma activate_of_can_be_activated (c : Campaign) (db : List Schedule)
    (now : DateTime) (h : c.can_be_activated db now = Except.ok true) :
    c.activate db now =
      Except.ok
        ({ c with
           status := CampaignStatus.ACTIVE
           pause_reason := none
           paused_at := none }, true) := by
  unfold Campaign.activate
  rw [h]

lemma activate_ok_id (c : Campaign) (db : List Schedule) (now : DateTime)
    (c2 : Campaign) (b : Bool) (h : c.activate db now = Except.ok (c2, b)) :
    c2.id = c.id := by
  unfold Campaign.activate at h
  rcases hc : c.can_be_activated db now with e | b'
  · rw [hc] at h
    cases h
  · rw [hc] at h
    cases b'
    · simp only [Except.ok.injEq, Prod.mk.injEq] at h
      rw [← h.1]
    · simp only [Except.ok.injEq, Prod.mk.injEq] at h
      rw [← h.1]

/-! Helper lemmas about the sweep loops: each loop preserves the table's
primary keys positionally, and a row whose primary key is never written
is left untouched. -/

lemma pause_loop_map_id (now : DateTime) (L : List Campaign) :
    ∀ (st : List Campaign) (n : ℕ),
      ((pause_loop now L st n).1).map Campaign.id = st.map Campaign.id := by
  induction L with
  | nil => intro st n; rfl
  | cons c rest ih =>
      intro st n
      unfold pause_loop
      by_cases hc : c.is_active = true
      · rw [if_pos hc, ih, update_campaign_map_id]
      · rw [if_neg hc]
        exact ih st n

lemma pause_loop_untouched (now : DateTime) (L : List Campaign) :
    ∀ (st : List Campaign) (n i : ℕ) (t : Campaign),
      st[i]? = some t → (∀ c ∈ L, c.id ≠ t.id) →
      ((pause_loop now L st n).1)[i]? = some t := by
  induction L with
  | nil => intro st n i t ht _; exact ht
  | cons c rest ih =>
      intro st n i t ht hL
      unfold pause_loop
      by_cases hc : c.is_active = true
      · rw [if_pos hc]
        refine ih _ _ _ _ ?_ (fun c' h' => hL c' (List.mem_cons_of_mem _ h'))
        exact update_campaign_untouched _ _ _ _ ht
          (hL c (List.mem_cons_self c rest))
      · rw [if_neg hc]
        exact ih _ _ _ _ ht (fun c' h' => hL c' (List.mem_cons_of_mem _ h'))

lemma dayparting_activate_loop_untouched (db : List Schedule)
    (now : DateTime) (L : List Campaign) :
    ∀ (st : List Campaign) (n e i : ℕ) (t : Campaign),
      st[i]? = some t →
      (∀ c ∈ L, daypartGuard c = true → c.id ≠ t.id) →
      ((dayparting_activate_loop db now L st n e).1)[i]? = some t := by
  induction L with
  | nil => intro st n e i t ht _; exact ht
  | cons c rest ih =>
      intro st n e i t ht hL
      have hrest : ∀ c' ∈ rest, daypartGuard c' = true → c'.id ≠ t.id :=
        fun c' h' => hL c' (List.mem_cons_of_mem _ h')
      unfold dayparting_activate_loop
      by_cases hg : daypartGuard c = true
      · rw [if_pos hg]
        have hcne : c.id ≠ t.id := hL c (List.mem_cons_self c rest) hg
        rcases hca : c.can_be_activated db now with e' | b
        · exact ih _ _ _ _ _ ht hrest
        · cases b
          · exact ih _ _ _ _ _ ht hrest
          · rw [activate_of_can_be_activated c db now hca]
            exact ih _ _ _ _ _
              (update_campaign_untouched _ _ _ _ ht hcne) hrest
      · rw [if_neg hg]
        exact ih _ _ _ _ _ ht hrest

lemma reactivate_loop_untouched (db : List Schedule) (now : DateTime)
    (L : List Campaign) :
    ∀ (st : List Campaign) (n e i : ℕ) (t : Campaign),
      st[i]? = some t → (∀ c ∈ L, c.id ≠ t.id) →
      ((reactivate_loop db now L st n e).1)[i]? = some t := by
  induction L with
  | nil => intro st n e i t ht _; exact ht
  | cons c rest ih =>
      intro st n e i t ht hL
      have hcne : c.id ≠ t.id := hL c (List.mem_cons_self c rest)
      have hrest : ∀ c' ∈ rest, c'.id ≠ t.id :=
        fun c' h' => hL c' (List.mem_cons_of_mem _ h')
      unfold reactivate_loop
      rcases hca : c.can_be_activated db now with e' | b
      · exact ih _ _ _ _ _ ht hrest
      · cases b
        · exact ih _ _ _ _ _ ht hrest
        · rw [activate_of_can_be_activated c db now hca]
          exact ih _ _ _ _ _
            (update_campaign_untouched _ _ _ _ ht hcne) hrest

/-- The one campaign of the fetched list whose primary key matches the
row at position `i` is processed exactly once: the row ends activated
precisely when `can_be_activated` returned `ok true`. -/
lemma reactivate_loop_single (db : List Schedule) (now : DateTime)
    (L1 : List Campaign) :
    ∀ (t : Campaign) (L2 st : List Campaign) (n e i : ℕ),
      st[i]? = some t →
      (∀ c ∈ L1, c.id ≠ t.id) → (∀ c ∈ L2, c.id ≠ t.id) →
      ((reactivate_loop db now (L1 ++ t :: L2) st n e).1)[i]? =
        some (match t.can_be_activated db now with
              | Except.ok true =>
                  { t with
                    status := CampaignStatus.ACTIVE
                    pause_reason := none
                    paused_at := none }
              | _ => t) := by
  induction L1 with
  | nil =>
      intro t L2 st n e i ht h1 h2
      rw [List.nil_append]
      unfold reactivate_loop
      rcases hca : t.can_be_activated db now with e' | b
      · exact reactivate_loop_untouched db now L2 st n (e + 1) i t ht h2
      · cases b
        · exact reactivate_loop_untouched db now L2 st n e i t ht h2
        · rw [activate_of_can_be_activated t db now hca]
          exact reactivate_loop_untouched db now L2 _ (n + 1) e i _
            (update_campaign_hit st _ t i ht rfl) h2
  | cons c rest ih =>
      intro t L2 st n e i ht h1 h2
      have hcne : c.id ≠ t.id := h1 c (List.mem_cons_self c rest)
      have hrest : ∀ c' ∈ rest, c'.id ≠ t.id :=
        fun c' h' => h1 c' (List.mem_cons_of_mem _ h')
      rw [List.cons_append]
      unfold reactivate_loop
      rcases hca : c.can_be_activated db now with e' | b
      · exact ih t L2 st n (e + 1) i ht hrest h2
      · cases b
        · exact ih t L2 st n e i ht hrest h2
        · rw [activate_of_can_be_activated c db now hca]
          exact ih t L2 _ (n + 1) e i
            (update_campaign_untouched st _ t i ht hcne) hrest h2

/-- Every campaign selected for pausing by the dayparting sweep comes
from the fetched list it walked. -/
lemma campaigns_to_pause_loop_subset (db : List Schedule) (now : DateTime)
    (L : List Campaign) :
    ∀ l, campaigns_to_pause_loop db now L = Except.ok l →
      ∀ c ∈ l, c ∈ L := by
  induction L with
  | nil =>
      intro l h c hc
      unfold campaigns_to_pause_loop at h
      simp only [Except.ok.injEq] at h
      subst h
      cases hc
  | cons c0 rest ih =>
      intro l h c hc
      unfold campaigns_to_pause_loop at h
      rcases hs : Schedule.get_schedule_for_campaign_and_day db c0.id
          now.weekday with e | os
      · rw [hs] at h
        simp at h
      · rw [hs] at h
        rcases os with _ | s
        · dsimp only at h
          rcases hr : campaigns_to_pause_loop db now rest with e | lr
          · rw [hr] at h
            simp at h
          · rw [hr] at h
            dsimp only at h
            simp only [Except.ok.injEq] at h
            subst h
            rcases List.mem_cons.mp hc with rfl | hcm
            · exact List.mem_cons_self c rest
            · exact List.mem_cons_of_mem _ (ih lr hr c hcm)
        · dsimp only at h
          rcases hr : campaigns_to_pause_loop db now rest with e | lr
          · rw [hr] at h
            simp at h
          · rw [hr] at h
            dsimp only at h
            by_cases htime : s.is_time_in_range now.timeOfDay = true
            · rw [if_pos htime] at h
              simp only [Except.ok.injEq] at h
              subst h
              exact List.mem_cons_of_mem _ (ih lr hr c hc)
            · rw [if_neg htime] at h
              simp only [Except.ok.injEq] at h
              subst h
              rcases List.mem_cons.mp hc with rfl | hcm
              · exact List.mem_cons_self c rest
              · exact List.mem_cons_of_mem _ (ih lr hr c hcm)

/-- Every campaign the activation phase fetched is a row of the table it
was fetched from. -/
lemma should_be_active_mem (db : List Schedule) (cs : List Campaign)
    (now : DateTime) (c : Campaign)
    (hc : c ∈ get_campaigns_that_should_be_active db cs now) : c ∈ cs := by
  unfold get_campaigns_that_should_be_active at hc
  rcases List.mem_filterMap.mp hc with ⟨s, _, hfind⟩
  exact List.mem_of_find?_eq_some hfind

/-- C7: `enforce_dayparting` never touches a campaign paused manually or
for a budget reason: in a campaign table with distinct primary keys, the
row of such a campaign is exactly the same after the sweep — the pause
phase only fetches ACTIVE campaigns and the activate phase only
reactivates campaigns paused with OUTSIDE_SCHEDULE or NO_SCHEDULE. -/
theorem C7_dayparting_never_touches_manual_or_budget_paused
    (db : List Schedule) (cs : List Campaign) (now : DateTime)
    (hnd : (cs.map Campaign.id).Nodup) (i : ℕ) (t : Campaign)
    (ht : cs[i]? = some t) (hp : t.status = CampaignStatus.PAUSED)
    (hr : t.pause_reason = some PauseReason.MANUAL ∨
          t.pause_reason = some PauseReason.DAILY_BUDGET_EXCEEDED ∨
          t.pause_reason = some PauseReason.MONTHLY_BUDGET_EXCEEDED) :
    ((enforce_dayparting db cs now).1)[i]? = some t := by
  unfold enforce_dayparting
  rcases hq : get_campaigns_that_should_be_paused db cs now with e | toPause
  · exact ht
  · dsimp only
    have htp : ∀ c ∈ toPause, c.id ≠ t.id := by
      intro c hc hid
      have hcf : c ∈ cs.filter Campaign.is_active :=
        campaigns_to_pause_loop_subset db now _ toPause hq c hc
      have hcs : c ∈ cs := List.mem_of_mem_filter hcf
      have hact : c.is_active = true := List.of_mem_filter hcf
      have hct : c = t := id_inj_of_nodup cs hnd hcs (List.getElem?_mem ht) hid
      rw [hct] at hact
      unfold Campaign.is_active at hact
      rw [hp] at hact
      simp at hact
    have h1 : ((pause_loop now toPause cs 0).1)[i]? = some t :=
      pause_loop_untouched now toPause cs 0 i t ht htp
    have hnd1 : (((pause_loop now toPause cs 0).1).map Campaign.id).Nodup := by
      rw [pause_loop_map_id]
      exact hnd
    have hguard : ∀ c ∈ get_campaigns_that_should_be_active db
        (pause_loop now toPause cs 0).1 now,
        daypartGuard c = true → c.id ≠ t.id := by
      intro c hc hg hid
      have hcs : c ∈ (pause_loop now toPause cs 0).1 :=
        should_be_active_mem db _ now c hc
      have htmem : t ∈ (pause_loop now toPause cs 0).1 := List.getElem?_mem h1
      have hct : c = t := id_inj_of_nodup _ hnd1 hcs htmem hid
      subst hct
      unfold daypartGuard at hg
      rcases hr with h' | h' | h' <;> rw [h'] at hg <;> simp at hg
    exact dayparting_activate_loop_untouched db now _ _ 0 0 i t h1 hguard

/-- C7 witness: the sweep run on a table holding one manually paused
campaign (with a schedule whose window is open) leaves it untouched. -/
theorem C7_witness :
    ((enforce_dayparting [demoSchedule] [demoManualPaused] demoTime).1)[0]? =
      some demoManualPaused :=
  C7_dayparting_never_touches_manual_or_budget_paused
    [demoSchedule] [demoManualPaused] demoTime (by decide) 0 demoManualPaused
    rfl rfl (Or.inl rfl)

lemma reset_daily_map_id (cs : List Campaign) :
    ((cs.map Campaign.reset_daily_spend).map Campaign.id) =
      cs.map Campaign.id := by
  rw [List.map_map]
  rfl

/-- In a list whose ids are distinct, decomposing around a member gives
segments whose ids all differ from the member's. -/
lemma nodup_split_ids (L1 L2 : List Campaign) (t : Campaign)
    (hnd : ((L1 ++ t :: L2).map Campaign.id).Nodup) :
    (∀ c ∈ L1, c.id ≠ t.id) ∧ (∀ c ∈ L2, c.id ≠ t.id) := by
  rw [List.map_append, List.map_cons] at hnd
  rcases List.nodup_append.mp hnd with ⟨h1, h2, hdisj⟩
  constructor
  · intro c hc heq
    exact hdisj (List.mem_map_of_mem Campaign.id hc)
      (heq ▸ List.mem_cons_self t.id (L2.map Campaign.id))
  · intro c hc heq
    exact (List.nodup_cons.mp h2).1 (heq ▸ List.mem_map_of_mem Campaign.id hc)

/-- C6: `reset_daily_spends` zeroes every campaign's `daily_spend`
regardless of status, and then reactivates exactly those campaigns that
were PAUSED with reason DAILY_BUDGET_EXCEEDED and for which
`can_be_activated` now holds; every other campaign — in particular one
still failing the schedule or monthly-budget check — keeps its (reset)
row unchanged, status and pause reason included. -/
theorem C6_reset_daily_zeroes_and_reactivates (db : List Schedule)
    (now : DateTime) (cs : List Campaign)
    (hnd : (cs.map Campaign.id).Nodup) (i : ℕ) (t : Campaign)
    (ht : (cs.map Campaign.reset_daily_spend)[i]? = some t) :
    t.daily_spend = 0 ∧
    ((reset_daily_spends db cs now).1)[i]? =
      some (if t.status = CampaignStatus.PAUSED ∧
               t.pause_reason = some PauseReason.DAILY_BUDGET_EXCEEDED ∧
               t.can_be_activated db now = Except.ok true
            then { t with
                   status := CampaignStatus.ACTIVE
                   pause_reason := none
                   paused_at := none }
            else t) := by
  have hzero : t.daily_spend = 0 := by
    rw [List.getElem?_map] at ht
    rcases hu : cs[i]? with _ | u
    · rw [hu] at ht
      cases ht
    · rw [hu] at ht
      simp only [Option.map_some'] at ht
      injection ht with ht
      rw [← ht]
      rfl
  refine ⟨hzero, ?_⟩
  have hnd1 : ((cs.map Campaign.reset_daily_spend).map Campaign.id).Nodup := by
    rw [reset_daily_map_id]
    exact hnd
  have hres : (reset_daily_spends db cs now).1 =
      (reactivate_loop db now
        ((cs.map Campaign.reset_daily_spend).filter (fun c =>
          (c.status == CampaignStatus.PAUSED) &&
          (c.pause_reason == some PauseReason.DAILY_BUDGET_EXCEEDED)))
        (cs.map Campaign.reset_daily_spend) 0 0).1 := rfl
  rw [hres]
  by_cases hp : ((t.status == CampaignStatus.PAUSED) &&
      (t.pause_reason == some PauseReason.DAILY_BUDGET_EXCEEDED)) = true
  · have htm : t ∈ (cs.map Campaign.reset_daily_spend).filter (fun c =>
        (c.status == CampaignStatus.PAUSED) &&
        (c.pause_reason == some PauseReason.DAILY_BUDGET_EXCEEDED)) :=
      List.mem_filter.mpr ⟨List.getElem?_mem ht, hp⟩
    rcases List.append_of_mem htm with ⟨L1, L2, hsplit⟩
    have hndL : (((cs.map Campaign.reset_daily_spend).filter (fun c =>
        (c.status == CampaignStatus.PAUSED) &&
        (c.pause_reason == some PauseReason.DAILY_BUDGET_EXCEEDED))).map
          Campaign.id).Nodup :=
      List.Nodup.sublist
        (List.Sublist.map Campaign.id (List.filter_sublist _)) hnd1
    rw [hsplit] at hndL
    rcases nodup_split_ids L1 L2 t hndL with ⟨h1, h2⟩
    rw [hsplit]
    rw [reactivate_loop_single db now L1 t L2
      (cs.map Campaign.reset_daily_spend) 0 0 i ht h1 h2]
    rcases hca : t.can_be_activated db now with e' | b
    · rw [if_neg (fun hand => by cases hand.2.2)]
    · cases b
      · rw [if_neg (fun hand => by cases hand.2.2)]
      · rw [if_pos ⟨by simpa using (Bool.and_eq_true_iff.mp hp).1,
          by simpa using (Bool.and_eq_true_iff.mp hp).2, rfl⟩]
  · have hL : ∀ c ∈ (cs.map Campaign.reset_daily_spend).filter (fun c =>
        (c.status == CampaignStatus.PAUSED) &&
        (c.pause_reason == some PauseReason.DAILY_BUDGET_EXCEEDED)),
        c.id ≠ t.id := by
      intro c hc heq
      have hcm : c ∈ cs.map Campaign.reset_daily_spend :=
        List.mem_of_mem_filter hc
      have hpc : ((c.status == CampaignStatus.PAUSED) &&
          (c.pause_reason == some PauseReason.DAILY_BUDGET_EXCEEDED)) = true :=
        (List.mem_filter.mp hc).2
      have hct : c = t := List.inj_on_of_nodup_map hnd1 hcm
        (List.getElem?_mem ht) heq
      rw [hct] at hpc
      exact hp hpc
    rw [reactivate_loop_untouched db now _ _ 0 0 i t ht hL]
    rw [if_neg (fun hand => by
      have : ((t.status == CampaignStatus.PAUSED) &&
          (t.pause_reason == some PauseReason.DAILY_BUDGET_EXCEEDED)) = true := by
        rw [Bool.and_eq_true_iff]
        exact ⟨by simp [hand.1], by simp [hand.2.1]⟩
      exact hp this)]

/-- C6 witness: resetting the table holding one campaign paused for the
daily budget, whose schedule window is open, zeroes its counter and
reactivates it. -/
theorem C6_witness :
    ((reset_daily_spends [demoScheduleFor2] [demoPausedDaily]
        demoTime).1)[0]? =
      some { demoPausedDaily.reset_daily_spend with
             status := CampaignStatus.ACTIVE
             pause_reason := none
             paused_at := none } := by
  have h := C6_reset_daily_zeroes_and_reactivates [demoScheduleFor2] demoTime
    [demoPausedDaily] (by decide) 0 demoPausedDaily.reset_daily_spend rfl
  rw [h.2]
  decide

/-! Helper lemmas for the pairing invariant. -/

lemma pairedInvariant_pause (c : Campaign) (r : PauseReason)
    (now : DateTime) : pairedInvariant (c.pause r now) := by
  unfold pairedInvariant Campaign.pause
  simp

lemma pairedInvariant_activated (c : Campaign) :
    pairedInvariant
      { c with
        status := CampaignStatus.ACTIVE
        pause_reason := none
        paused_at := none } := by
  unfold pairedInvariant
  simp

lemma pairedInvariant_check (c : Campaign) (now : DateTime)
    (h : pairedInvariant c) : pairedInvariant (check_budget_limits c now).1 := by
  rcases check_budget_limits_fst_cases c now with hc | hc | hc <;> rw [hc]
  · exact h
  · exact pairedInvariant_pause c _ now
  · exact pairedInvariant_pause c _ now

lemma pairedInvariant_activate (c : Campaign) (db : List Schedule)
    (now : DateTime) (c2 : Campaign) (b : Bool) (h : pairedInvariant c)
    (ha : c.activate db now = Except.ok (c2, b)) : pairedInvariant c2 := by
  unfold Campaign.activate at ha
  rcases hca : c.can_be_activated db now with e | b'
  · rw [hca] at ha
    cases ha
  · rw [hca] at ha
    cases b'
    · simp only [Except.ok.injEq, Prod.mk.injEq] at ha
      rw [← ha.1]
      exact h
    · simp only [Except.ok.injEq, Prod.mk.injEq] at ha
      rw [← ha.1]
      exact pairedInvariant_activated c

lemma pause_loop_inv (now : DateTime) (L : List Campaign) :
    ∀ (st : List Campaign) (n : ℕ), (∀ x ∈ st, pairedInvariant x) →
      ∀ x ∈ (pause_loop now L st n).1, pairedInvariant x := by
  induction L with
  | nil => intro st n h; exact h
  | cons c rest ih =>
      intro st n h
      unfold pause_loop
      by_cases hc : c.is_active = true
      · rw [if_pos hc]
        apply ih
        intro x hx
        rcases mem_update_campaign _ _ _ hx with hx' | rfl
        · exact h x hx'
        · exact pairedInvariant_pause c _ now
      · rw [if_neg hc]
        exact ih st n h

lemma reactivate_loop_inv (db : List Schedule) (now : DateTime)
    (L : List Campaign) :
    ∀ (st : List Campaign) (n e : ℕ), (∀ x ∈ st, pairedInvariant x) →
      ∀ x ∈ (reactivate_loop db now L st n e).1, pairedInvariant x := by
  induction L with
  | nil => intro st n e h; exact h
  | cons c rest ih =>
      intro st n e h
      unfold reactivate_loop
      rcases hca : c.can_be_activated db now with e' | b
      · exact ih st n (e + 1) h
      · cases b
        · exact ih st n e h
        · rw [activate_of_can_be_activated c db now hca]
          apply ih
          intro x hx
          rcases mem_update_campaign _ _ _ hx with hx' | rfl
          · exact h x hx'
          · exact pairedInvariant_activated c

lemma dayparting_activate_loop_inv (db : List Schedule) (now : DateTime)
    (L : List Campaign) :
    ∀ (st : List Campaign) (n e : ℕ), (∀ x ∈ st, pairedInvariant x) →
      ∀ x ∈ (dayparting_activate_loop db now L st n e).1, pairedInvariant x := by
  induction L with
  | nil => intro st n e h; exact h
  | cons c rest ih =>
      intro st n e h
      unfold dayparting_activate_loop
      by_cases hg : daypartGuard c = true
      · rw [if_pos hg]
        rcases hca : c.can_be_activated db now with e' | b
        · exact ih st n (e + 1) h
        · cases b
          · exact ih st n e h
          · rw [activate_of_can_be_activated c db now hca]
            apply ih
            intro x hx
            rcases mem_update_campaign _ _ _ hx with hx' | rfl
            · exact h x hx'
            · exact pairedInvariant_activated c
      · rw [if_neg hg]
        exact ih st n e h

lemma budget_loop_inv (now : DateTime) (L : List Campaign) :
    ∀ (st : List Campaign) (ch pd pm : ℕ),
      (∀ x ∈ st, pairedInvariant x) → (∀ c ∈ L, pairedInvariant c) →
      ∀ x ∈ (budget_loop now L st ch pd pm).1, pairedInvariant x := by
  induction L with
  | nil => intro st ch pd pm h _; exact h
  | cons c rest ih =>
      intro st ch pd pm h hL
      have hc : pairedInvariant c := hL c (List.mem_cons_self c rest)
      have hrest : ∀ c' ∈ rest, pairedInvariant c' :=
        fun c' h' => hL c' (List.mem_cons_of_mem _ h')
      have hst2 : ∀ x ∈ update_campaign st (check_budget_limits c now).1,
          pairedInvariant x := by
        intro x hx
        rcases mem_update_campaign _ _ _ hx with hx' | rfl
        · exact h x hx'
        · exact pairedInvariant_check c now hc
      unfold budget_loop
      dsimp only
      by_cases h1 : ((check_budget_limits c now).2.action_taken ==
          some "paused_daily") = true
      · rw [if_pos h1]
        exact ih _ _ _ _ hst2 hrest
      · rw [if_neg h1]
        by_cases h2 : ((check_budget_limits c now).2.action_taken ==
            some "paused_monthly") = true
        · rw [if_pos h2]
          exact ih _ _ _ _ hst2 hrest
        · rw [if_neg h2]
          exact ih _ _ _ _ hst2 hrest

lemma pairedInvariant_track_spend (c : Campaign) (ledger : List Spend)
    (amount : ℤ) (spend_date : Option ℕ) (today : ℕ)
    (description : Option String) (now : DateTime) (newPk : ℕ)
    (out : Campaign × List Spend × Spend) (h : pairedInvariant c)
    (ht : track_spend c ledger amount spend_date today description now newPk =
      Except.ok out) : pairedInvariant out.1 := by
  unfold track_spend at ht
  by_cases hle : amount ≤ 0
  · rw [if_pos hle] at ht
    cases ht
  · rw [if_neg hle] at ht
    unfold Spend.save at ht
    simp only [hle, if_false, Option.isNone_some, Bool.false_eq_true,
      if_true, ite_true, ite_false, reduceIte, Except.ok.injEq] at ht
    rw [← ht]
    exact pairedInvariant_check _ now h

/-- C5: the pairing invariant — `pause_reason` and `paused_at` are both
empty exactly when `status = ACTIVE` (hence both set exactly when
PAUSED) — is established by `pause` and preserved by every operation:
`activate`, `add_spend`, both counter resets, the per-campaign budget
check, `track_spend`, and all four sweeps (`enforce_budget_limits`,
`enforce_dayparting`, `reset_daily_spends`, `reset_monthly_spends`). -/
theorem C5_pairing_invariant_preserved (db : List Schedule) (now : DateTime) :
    (∀ (c : Campaign) (r : PauseReason), pairedInvariant (c.pause r now)) ∧
    (∀ (c c2 : Campaign) (b : Bool), pairedInvariant c →
      c.activate db now = Except.ok (c2, b) → pairedInvariant c2) ∧
    (∀ (c c2 : Campaign) (amount : ℤ), pairedInvariant c →
      c.add_spend amount = Except.ok c2 → pairedInvariant c2) ∧
    (∀ c : Campaign, pairedInvariant c →
      pairedInvariant c.reset_daily_spend ∧
      pairedInvariant c.reset_monthly_spend ∧
      pairedInvariant (check_budget_limits c now).1) ∧
    (∀ (c : Campaign) (ledger : List Spend) (amount : ℤ)
      (spend_date : Option ℕ) (today : ℕ) (description : Option String)
      (newPk : ℕ) (out : Campaign × List Spend × Spend), pairedInvariant c →
      track_spend c ledger amount spend_date today description now newPk =
        Except.ok out → pairedInvariant out.1) ∧
    (∀ cs : List Campaign, (∀ c ∈ cs, pairedInvariant c) →
      (∀ x ∈ (enforce_budget_limits cs now).1, pairedInvariant x) ∧
      (∀ x ∈ (enforce_dayparting db cs now).1, pairedInvariant x) ∧
      (∀ x ∈ (reset_daily_spends db cs now).1, pairedInvariant x) ∧
      (∀ x ∈ (reset_monthly_spends db cs now).1, pairedInvariant x)) := by
  refine ⟨fun c r => pairedInvariant_pause c r now,
    fun c c2 b h ha => pairedInvariant_activate c db now c2 b h ha,
    ?_, fun c h => ⟨h, h, pairedInvariant_check c now h⟩,
    fun c ledger amount sd today desc pk out h ht =>
      pairedInvariant_track_spend c ledger amount sd today desc now pk out h ht,
    ?_⟩
  · intro c c2 amount h ha
    unfold Campaign.add_spend at ha
    by_cases hle : amount ≤ 0
    · rw [if_pos hle] at ha
      cases ha
    · rw [if_neg hle] at ha
      simp only [Except.ok.injEq] at ha
      rw [← ha]
      exact h
  · intro cs hcs
    refine ⟨?_, ?_, ?_, ?_⟩
    · intro x hx
      have hres : (enforce_budget_limits cs now).1 =
          (budget_loop now (cs.filter Campaign.is_active) cs 0 0 0).1 := rfl
      rw [hres] at hx
      exact budget_loop_inv now _ cs 0 0 0 hcs
        (fun c h => hcs c (List.mem_of_mem_filter h)) x hx
    · rcases hq : get_campaigns_that_should_be_paused db cs now with e | toPause
      · intro x hx
        have hres : (enforce_dayparting db cs now).1 = cs := by
          unfold enforce_dayparting
          rw [hq]
        rw [hres] at hx
        exact hcs x hx
      · intro x hx
        have hres : (enforce_dayparting db cs now).1 =
            (dayparting_activate_loop db now
              (get_campaigns_that_should_be_active db
                (pause_loop now toPause cs 0).1 now)
              (pause_loop now toPause cs 0).1 0 0).1 := by
          unfold enforce_dayparting
          rw [hq]
        rw [hres] at hx
        exact dayparting_activate_loop_inv db now _ _ 0 0
          (pause_loop_inv now toPause cs 0 hcs) x hx
    · intro x hx
      have hres : (reset_daily_spends db cs now).1 =
          (reactivate_loop db now
            ((cs.map Campaign.reset_daily_spend).filter (fun c =>
              (c.status == CampaignStatus.PAUSED) &&
              (c.pause_reason == some PauseReason.DAILY_BUDGET_EXCEEDED)))
            (cs.map Campaign.reset_daily_spend) 0 0).1 := rfl
      rw [hres] at hx
      refine reactivate_loop_inv db now _ _ 0 0 ?_ x hx
      intro y hy
      rcases List.mem_map.mp hy with ⟨u, hu, rfl⟩
      exact hcs u hu
    · intro x hx
      have hres : (reset_monthly_spends db cs now).1 =
          (reactivate_loop db now
            ((cs.map Campaign.reset_monthly_spend).filter (fun c =>
              (c.status == CampaignStatus.PAUSED) &&
              (c.pause_reason == some PauseReason.MONTHLY_BUDGET_EXCEEDED)))
            (cs.map Campaign.reset_monthly_spend) 0 0).1 := rfl
      rw [hres] at hx
      refine reactivate_loop_inv db now _ _ 0 0 ?_ x hx
      intro y hy
      rcases List.mem_map.mp hy with ⟨u, hu, rfl⟩
      exact hcs u hu

/-- C5 witness: the invariant holds concretely after pausing the sample
active campaign manually, and after the budget check pauses the sample
both-exceeded campaign. -/
theorem C5_witness :
    pairedInvariant (demoActive.pause PauseReason.MANUAL demoTime) ∧
    pairedInvariant (check_budget_limits demoBothExceeded demoTime).1 :=
  ⟨(C5_pairing_invariant_preserved [] demoTime).1 demoActive
     PauseReason.MANUAL,
   ((C5_pairing_invariant_preserved [] demoTime).2.2.2.1 demoBothExceeded
     (by decide)).2.2⟩

end BudgetSystem
